import Mathlib

/-!
Verification of the FreshBakes order engine: a shallow embedding of the
order lifecycle and pricing computation (cart aggregation, coupon discount
calculation, stock decrement on checkout, order status state machine,
review/rating aggregation) translated from the Python source under
`app/models/` and `app/routes/`.

Conventions of the embedding:
* Python `float` money amounts are modelled as `ℚ` (all the arithmetic the
  spec cares about is exact decimal arithmetic on small values).
* Python `int` quantities and counters are modelled as `ℤ`; database ids
  as `Nat`; `datetime` instants as `ℤ` (comparison is all that is used).
* Nullable columns are `Option`; Python truthiness of a numeric column
  (`if self.max_discount:`) is modelled as `some m` with `m ≠ 0`.
* The ORM session is modelled by explicit state passing: each route
  handler becomes a function from its inputs to the updated records it
  writes, with `Except`/`Bool` capturing the rejection paths.
-/

namespace FreshBakes

/-- Order status enumeration from `app/models/order.py`
(pending, confirmed, preparing, ready, out_for_delivery, delivered,
cancelled). -/
inductive OrderStatus where
  | pending
  | confirmed
  | preparing
  | ready
  | out_for_delivery
  | delivered
  | cancelled
deriving DecidableEq, Repr

/-- Coupon discount type from `app/models/coupon.py`: the string column
`discount_type` takes the two values `'percentage'` and `'fixed'`
(`calculate_discount` treats every non-`'percentage'` value as fixed). -/
inductive DiscountType where
  | percentage
  | fixed
deriving DecidableEq, Repr

/-- The human-readable reasons returned by `Coupon.is_valid`, one per
`return False, '...'` branch of `app/models/coupon.py`, plus `valid` for
the final `return True, 'Coupon is valid'`. -/
inductive CouponReason where
  | notActive
  | notYetValid
  | expired
  | usageLimitReached
  | belowMinimumOrder
  | wrongBakery
  | valid
deriving DecidableEq, Repr

/-- `Product` model (`app/models/product.py`), restricted to the columns
the order engine reads or writes. -/
structure Product where
  id : Nat
  bakery_id : Nat
  name : String
  price : ℚ
  discount_price : Option ℚ
  stock_quantity : ℤ
  is_available : Bool
deriving DecidableEq, Repr

/-- `Product.current_price` (`app/models/product.py` lines 33-38):
`if self.discount_price and self.discount_price < self.price: return
self.discount_price; return self.price`.  `self.discount_price` is truthy
when it is non-null and non-zero. -/
def Product.current_price (p : Product) : ℚ :=
  match p.discount_price with
  | some d => if d ≠ 0 ∧ d < p.price then d else p.price
  | none => p.price

/-- `Product.reduce_stock` (`app/models/product.py` lines 51-56): decrement
`stock_quantity` and return `True` when `stock_quantity >= quantity`,
otherwise leave it unchanged and return `False`.  Returns the updated
product together with the boolean result. -/
def Product.reduce_stock (p : Product) (quantity : ℤ) : Product × Bool :=
  if p.stock_quantity ≥ quantity then
    ({ p with stock_quantity := p.stock_quantity - quantity }, true)
  else
    (p, false)

/-- `CartItem` row (`app/models/cart.py`) joined with its `product`
relationship, as the checkout and cart routes traverse it
(`cart_item.product`).  `add_to_cart` merges duplicate products into one
row, so distinct rows of one user's cart carry distinct products. -/
structure CartEntry where
  id : Nat
  product : Product
  quantity : ℤ
  special_instructions : String
deriving DecidableEq, Repr

/-- `CartItem.subtotal` (`app/models/cart.py` lines 18-23):
`self.product.current_price * self.quantity` (the `self.product is None`
branch returning 0 cannot arise here because `CartEntry` carries the
joined product, matching the non-null `product_id` foreign key). -/
def CartEntry.subtotal (e : CartEntry) : ℚ :=
  e.product.current_price * (e.quantity : ℚ)

/-- `Coupon` model (`app/models/coupon.py`), the columns read by
`is_valid` and `calculate_discount` plus `used_count` which checkout
increments. -/
structure Coupon where
  bakery_id : Option Nat
  code : String
  discount_type : DiscountType
  discount_value : ℚ
  min_order_amount : ℚ
  max_discount : Option ℚ
  usage_limit : Option ℤ
  used_count : ℤ
  valid_from : Option ℤ
  valid_until : Option ℤ
  is_active : Bool
deriving DecidableEq, Repr

/-- `Coupon.is_valid` (`app/models/coupon.py` lines 26-52), with `now`
passed explicitly in place of `datetime.utcnow()`.  Each Python guard is
translated in order; numeric truthiness makes `usage_limit = some 0`
behave as unlimited, and the bakery-scope guard fires only when both the
coupon's `bakery_id` and the argument `bakery_id` are non-null (ids are
positive, so truthiness is the null check). -/
def Coupon.is_valid (c : Coupon) (order_amount : ℚ) (bakery_id : Option Nat)
    (now : ℤ) : Bool × CouponReason :=
  if ¬ c.is_active then
    (false, .notActive)
  else if (match c.valid_from with
           | some vf => decide (now < vf)
           | none => false) then
    (false, .notYetValid)
  else if (match c.valid_until with
           | some vu => decide (vu < now)
           | none => false) then
    (false, .expired)
  else if (match c.usage_limit with
           | some l => decide (l ≠ 0 ∧ c.used_count ≥ l)
           | none => false) then
    (false, .usageLimitReached)
  else if order_amount < c.min_order_amount then
    (false, .belowMinimumOrder)
  else if (match c.bakery_id, bakery_id with
           | some cb, some b => decide (cb ≠ b)
           | _, _ => false) then
    (false, .wrongBakery)
  else
    (true, .valid)

/-- State-passing form of `Coupon.is_valid`: the method body performs no
assignment to any attribute, so the coupon component of the result is the
receiver as the code left it. -/
def Coupon.is_validS (c : Coupon) (order_amount : ℚ) (bakery_id : Option Nat)
    (now : ℤ) : (Bool × CouponReason) × Coupon :=
  (c.is_valid order_amount bakery_id now, c)

/-- `Coupon.calculate_discount` (`app/models/coupon.py` lines 54-62):
percentage type computes `order_amount * discount_value / 100`, capped by
`min` with `max_discount` when that column is truthy (non-null and
non-zero); fixed type returns `min(discount_value, order_amount)`. -/
def Coupon.calculate_discount (c : Coupon) (order_amount : ℚ) : ℚ :=
  match c.discount_type with
  | .percentage =>
      let d := order_amount * c.discount_value / 100
      match c.max_discount with
      | some m => if m ≠ 0 then min d m else d
      | none => d
  | .fixed => min c.discount_value order_amount

/-- `Review` row (`app/models/review.py`), the two columns
`Bakery.update_rating` reads. -/
structure Review where
  rating : ℚ
  is_visible : Bool
deriving DecidableEq, Repr

/-- `Bakery` model (`app/models/bakery.py`), the columns the order engine
and the rating aggregation use. -/
structure Bakery where
  id : Nat
  rating : ℚ
  total_reviews : Nat
  min_order_amount : ℚ
  delivery_fee : ℚ
  is_approved : Bool
deriving DecidableEq, Repr

/-- `Bakery.update_rating` (`app/models/bakery.py` lines 61-69): filter
the bakery's reviews to `is_visible=True`; when non-empty set `rating` to
the arithmetic mean of their ratings and `total_reviews` to their count,
otherwise reset both to 0. -/
def Bakery.update_rating (b : Bakery) (reviews : List Review) : Bakery :=
  let visible := reviews.filter (·.is_visible)
  if visible.isEmpty then
    { b with rating := 0, total_reviews := 0 }
  else
    { b with
        rating := (visible.map (·.rating)).sum / (visible.length : ℚ),
        total_reviews := visible.length }

/-- `Order` model (`app/models/order.py`), the columns the checkout,
cancellation and status-update routes touch. -/
structure Order where
  order_number : String
  bakery_id : Nat
  delivery_address_id : Nat
  subtotal : ℚ
  delivery_fee : ℚ
  discount : ℚ
  total_amount : ℚ
  status : OrderStatus
  cancellation_reason : Option String
  delivered_at : Option ℤ
deriving DecidableEq, Repr

/-- `OrderItem` model (`app/models/order.py` lines 72-86): frozen snapshot
of the product at order time. -/
structure OrderItem where
  product_id : Nat
  product_name : String
  quantity : ℤ
  unit_price : ℚ
  subtotal : ℚ
  special_instructions : String
deriving DecidableEq, Repr

/-- `OrderStatusHistory` row (`app/models/order.py` lines 89-100). -/
structure StatusHistoryEntry where
  status : OrderStatus
  notes : String
deriving DecidableEq, Repr

/-- `Order.can_cancel` (`app/models/order.py` lines 64-66):
`self.status in ['pending', 'confirmed']`. -/
def Order.can_cancel (o : Order) : Bool :=
  o.status = .pending ∨ o.status = .confirmed

/-- The `valid_transitions` dictionary of
`app/routes/baker.py::update_order_status`; statuses absent from the
dictionary (`delivered`, `cancelled`) map to the empty list, matching the
route's `valid_transitions.get(order.status, [])`. -/
def validTransitions : OrderStatus → List OrderStatus
  | .pending => [.confirmed, .cancelled]
  | .confirmed => [.preparing, .cancelled]
  | .preparing => [.ready, .cancelled]
  | .ready => [.out_for_delivery, .delivered]
  | .out_for_delivery => [.delivered]
  | .delivered => []
  | .cancelled => []

/-- `app/routes/baker.py::update_order_status` (lines 400-441): when the
`(current status, new status)` pair is allowed by `valid_transitions`, set
the status, append one history row, and stamp `delivered_at` when the new
status is `delivered`; otherwise flash an error and leave everything
unchanged.  Returns (order, history, success flag). -/
def update_order_status (o : Order) (history : List StatusHistoryEntry)
    (new_status : OrderStatus) (notes : String) (now : ℤ) :
    Order × List StatusHistoryEntry × Bool :=
  if new_status ∈ validTransitions o.status then
    ({ o with
        status := new_status,
        delivered_at :=
          if new_status = .delivered then some now else o.delivered_at },
      history ++ [⟨new_status, notes⟩], true)
  else
    (o, history, false)

/-- The stock-restoration loop of `app/routes/orders.py::cancel_order`
(lines 217-218): `for item in order.items:
item.product.stock_quantity += item.quantity`, applied to the product
table keyed by id. -/
def restoreStock (items : List OrderItem) (products : List Product) :
    List Product :=
  items.foldl
    (fun ps it =>
      ps.map (fun p =>
        if p.id = it.product_id then
          { p with stock_quantity := p.stock_quantity + it.quantity }
        else p))
    products

/-- `app/routes/orders.py::cancel_order` (lines 198-223): if
`order.can_cancel()` fails, flash and change nothing; otherwise set the
status to `cancelled`, record the reason, append a `cancelled` history
row, and restore stock for every order item.  Returns
(order, products, history, success flag). -/
def cancel_order (o : Order) (items : List OrderItem)
    (products : List Product) (history : List StatusHistoryEntry)
    (reason : String) :
    Order × List Product × List StatusHistoryEntry × Bool :=
  if o.can_cancel then
    ({ o with status := .cancelled, cancellation_reason := some reason },
      restoreStock items products,
      history ++ [⟨.cancelled, reason⟩], true)
  else
    (o, products, history, false)

/-- The rejection paths of `app/routes/orders.py::checkout`: empty cart,
subtotal below the bakery's minimum order amount, and an address id that
does not belong to the actor.  An invalid coupon is deliberately NOT an
error (soft-fail). -/
inductive CheckoutError where
  | emptyCart
  | belowMinimumOrder
  | invalidAddress
deriving DecidableEq, Repr

/-- The records a successful checkout writes: the new order, its items,
the cart products after stock reduction, the appended history rows, the
coupon as checkout left it, and the (cleared) cart. -/
structure CheckoutResult where
  order : Order
  items : List OrderItem
  products : List Product
  history : List StatusHistoryEntry
  coupon : Option Coupon
  cart : List CartEntry
deriving DecidableEq, Repr

/-- `subtotal = sum(item.subtotal for item in cart_items)`
(`app/routes/orders.py` line 27). -/
def cartSubtotal (cart : List CartEntry) : ℚ :=
  (cart.map CartEntry.subtotal).sum

/-- `app/routes/orders.py::checkout` (lines 13-117), POST path.  Inputs
are the actor's cart rows (with joined products), the bakery of the first
cart item, the ids of the actor's addresses, the submitted address id,
the coupon looked up from the submitted code (`none` when no code was
given or no coupon matched), the clock, and the generated order number.
The guards appear in source order: empty cart, minimum order amount,
address ownership.  An invalid coupon is skipped (discount stays 0); a
valid one contributes `calculate_discount` and gets `used_count`
incremented.  `total = subtotal + delivery_fee - discount`; one
`OrderItem` snapshot per cart row; `reduce_stock(quantity)` per product;
one `pending` history row; the cart is cleared.  (The route also stores
payment method, special instructions and an estimated delivery time,
none of which the claims mention.) -/
def checkout (cart : List CartEntry) (bakery : Bakery)
    (addresses : List Nat) (address_id : Nat) (coupon : Option Coupon)
    (now : ℤ) (order_number : String) :
    Except CheckoutError CheckoutResult :=
  if cart.isEmpty then
    .error .emptyCart
  else
    let subtotal := cartSubtotal cart
    if subtotal < bakery.min_order_amount then
      .error .belowMinimumOrder
    else if address_id ∉ addresses then
      .error .invalidAddress
    else
      let applied : ℚ × Option Coupon :=
        match coupon with
        | some c =>
            if (c.is_valid subtotal (some bakery.id) now).1 then
              (c.calculate_discount subtotal,
                some { c with used_count := c.used_count + 1 })
            else
              (0, some c)
        | none => (0, none)
      let discount := applied.1
      let total := subtotal + bakery.delivery_fee - discount
      let order : Order :=
        { order_number := order_number
          bakery_id := bakery.id
          delivery_address_id := address_id
          subtotal := subtotal
          delivery_fee := bakery.delivery_fee
          discount := discount
          total_amount := total
          status := .pending
          cancellation_reason := none
          delivered_at := none }
      let items := cart.map (fun e =>
        { product_id := e.product.id
          product_name := e.product.name
          quantity := e.quantity
          unit_price := e.product.current_price
          subtotal := e.subtotal
          special_instructions := e.special_instructions : OrderItem })
      let products := cart.map (fun e => (e.product.reduce_stock e.quantity).1)
      .ok
        { order := order
          items := items
          products := products
          history := [⟨.pending, "Order placed"⟩]
          coupon := applied.2
          cart := [] }

/-- `app/routes/cart.py::update_cart` (lines 98-124): look the row up by
id (404 when absent, modelled as `none`); a non-positive submitted
quantity deletes the row, a positive one overwrites its quantity. -/
def update_cart (cart : List CartEntry) (item_id : Nat) (quantity : ℤ) :
    Option (List CartEntry) :=
  if (cart.find? (fun e => e.id = item_id)).isSome then
    if quantity ≤ 0 then
      some (cart.filter (fun e => ¬ e.id = item_id))
    else
      some (cart.map (fun e =>
        if e.id = item_id then { e with quantity := quantity } else e))
  else
    none

/-- `app/routes/cart.py::remove_from_cart` (lines 127-144): delete the
row looked up by id. -/
def remove_from_cart (cart : List CartEntry) (item_id : Nat) :
    Option (List CartEntry) :=
  if (cart.find? (fun e => e.id = item_id)).isSome then
    some (cart.filter (fun e => ¬ e.id = item_id))
  else
    none

/-- Outcomes of `app/routes/cart.py::add_to_cart`: product unavailable
(or bakery unapproved), a different-bakery cart awaiting the replace
confirmation, or the updated cart. -/
inductive AddOutcome where
  | notAvailable
  | confirmReplace
  | added (cart : List CartEntry)
deriving DecidableEq, Repr

/-- The merge-or-append tail of `add_to_cart` (lines 69-85): when a row
for the product exists, `quantity += quantity` and the special
instructions are overwritten when non-empty (Python string truthiness);
otherwise a fresh row with the submitted quantity is appended.  No
positivity check is performed on the submitted quantity anywhere in the
route. -/
def addOrMerge (cart : List CartEntry) (product : Product) (quantity : ℤ)
    (instructions : String) (new_id : Nat) : List CartEntry :=
  if (cart.find? (fun e => e.product.id = product.id)).isSome then
    cart.map (fun e =>
      if e.product.id = product.id then
        { e with
            quantity := e.quantity + quantity,
            special_instructions :=
              if instructions ≠ "" then instructions
              else e.special_instructions }
      else e)
  else
    cart ++ [⟨new_id, product, quantity, instructions⟩]

/-- `app/routes/cart.py::add_to_cart` (lines 38-95): reject when the
product is unavailable or its bakery unapproved; when the cart holds
items of a different bakery, either ask for confirmation or (with
`replace_cart` set) clear the cart first; then merge or append.
`bakery_approved` is the product's bakery's `is_approved` flag and
`new_id` the id the store assigns to a freshly inserted row. -/
def add_to_cart (cart : List CartEntry) (product : Product)
    (bakery_approved : Bool) (quantity : ℤ) (instructions : String)
    (replace_cart : Bool) (new_id : Nat) : AddOutcome :=
  if ¬ product.is_available ∨ ¬ bakery_approved then
    .notAvailable
  else
    match cart.head? with
    | some first =>
        if first.product.bakery_id ≠ product.bakery_id then
          if replace_cart then
            .added (addOrMerge [] product quantity instructions new_id)
          else
            .confirmReplace
        else
          .added (addOrMerge cart product quantity instructions new_id)
    | none => .added (addOrMerge cart product quantity instructions new_id)

/-- A UTC instant truncated to the minute, the input of
`datetime.utcnow().strftime('%Y%m%d%H%M')`. -/
structure Timestamp where
  year : Nat
  month : Nat
  day : Nat
  hour : Nat
  minute : Nat
deriving DecidableEq, Repr

/-- Two-digit zero-padded decimal field of `strftime`
(`%m`, `%d`, `%H`, `%M`), faithful for values below 100. -/
def pad2 (n : Nat) : List Char :=
  [Nat.digitChar (n / 10 % 10), Nat.digitChar (n % 10)]

/-- Four-digit decimal year field of `strftime` (`%Y`), faithful for
years 1000-9999 (every value `datetime.utcnow()` can produce). -/
def pad4 (n : Nat) : List Char :=
  [Nat.digitChar (n / 1000 % 10), Nat.digitChar (n / 100 % 10),
   Nat.digitChar (n / 10 % 10), Nat.digitChar (n % 10)]

/-- `strftime('%Y%m%d%H%M')` as a character list. -/
def timestampChars (t : Timestamp) : List Char :=
  pad4 t.year ++ pad2 t.month ++ pad2 t.day ++ pad2 t.hour ++ pad2 t.minute

/-- One character of `str(uuid.uuid4().hex)[:6].upper()`: a random nibble
rendered as a lowercase hex digit and uppercased. -/
def hexUpperChar (i : Fin 16) : Char :=
  (Nat.digitChar i.val).toUpper

/-- `Order.generate_order_number` (`app/models/order.py` lines 48-53):
`'LC' + utcnow().strftime('%Y%m%d%H%M') + uuid4().hex[:6].upper()`.
The random draw is the nibble sequence of `uuid4().hex` (32 nibbles in
the real generator; any list of at least 6 gives the same prefix). -/
def generate_order_number (t : Timestamp) (r : List (Fin 16)) : String :=
  String.mk (['L', 'C'] ++ timestampChars t ++ (r.take 6).map hexUpperChar)

/-- Uppercase hexadecimal digit: `0`-`9` or `A`-`F`. -/
def isUpperHexDigit (ch : Char) : Bool :=
  ch.isDigit || ch = 'A' || ch = 'B' || ch = 'C' || ch = 'D' || ch = 'E'
    || ch = 'F'

/-- The persisted order-number format: `LC`, then 12 decimal digits
(`YYYYMMDDHHmm`), then 6 uppercase hex characters — 20 characters in
total. -/
def isOrderNumberFormat (s : String) : Bool :=
  let cs := s.toList
  decide (cs.length = 20) && decide (cs.take 2 = ['L', 'C'])
    && ((cs.drop 2).take 12).all Char.isDigit
    && ((cs.drop 2).drop 12).all isUpperHexDigit

/-! ### Concrete fixtures used by witnesses and counterexamples -/

/-- Product A of the spec's end-to-end scenario: price 180, stock 10. -/
def exProductA : Product := ⟨1, 1, "A", 180, none, 10, true⟩

/-- Product B of the spec's end-to-end scenario: price 85, stock 5. -/
def exProductB : Product := ⟨2, 1, "B", 85, none, 5, true⟩

/-- Bakery of the spec's end-to-end scenario: delivery fee 30, no
minimum. -/
def exBakery : Bakery := ⟨1, 0, 0, 0, 30, true⟩

/-- Cart of the spec's end-to-end scenario: 2 × A, 1 × B. -/
def exCart : List CartEntry := [⟨1, exProductA, 2, ""⟩, ⟨2, exProductB, 1, ""⟩]

/-- The result checkout produces on the scenario cart: subtotal 445,
total 475, item subtotals 360 and 85, initial status `pending`. -/
def exRes : CheckoutResult :=
  { order :=
      { order_number := "LC202405142301A1B2C3", bakery_id := 1,
        delivery_address_id := 7, subtotal := 445, delivery_fee := 30,
        discount := 0, total_amount := 475, status := .pending,
        cancellation_reason := none, delivered_at := none }
    items := [⟨1, "A", 2, 180, 360, ""⟩, ⟨2, "B", 1, 85, 85, ""⟩]
    products := [⟨1, 1, "A", 180, none, 8, true⟩, ⟨2, 1, "B", 85, none, 4, true⟩]
    history := [⟨.pending, "Order placed"⟩]
    coupon := none
    cart := [] }

/-! ### Theorems for the claims -/

/-- **C4** (amended): `calculate_discount` returns
`subtotal × discount_value / 100` for percentage coupons, capped by
`max_discount` when that cap is present (non-null, non-zero), and
`min(discount_value, subtotal)` for fixed coupons; the discount never
exceeds the subtotal for fixed coupons and, for percentage coupons,
whenever `discount_value ≤ 100`; the 10%-off coupon with
`max_discount = 100` on a 2000-unit subtotal yields 100. -/
theorem C4_calculate_discount (c : Coupon) (amt : ℚ) :
    (c.discount_type = .fixed →
      c.calculate_discount amt = min c.discount_value amt) ∧
    (c.discount_type = .fixed → c.calculate_discount amt ≤ amt) ∧
    (c.discount_type = .percentage → c.max_discount = none →
      c.calculate_discount amt = amt * c.discount_value / 100) ∧
    (c.discount_type = .percentage → ∀ m, c.max_discount = some m → m ≠ 0 →
      c.calculate_discount amt = min (amt * c.discount_value / 100) m) ∧
    (c.discount_type = .percentage → 0 ≤ amt → c.discount_value ≤ 100 →
      c.calculate_discount amt ≤ amt) ∧
    (({ bakery_id := none, code := "TEN10", discount_type := .percentage,
        discount_value := 10, min_order_amount := 0,
        max_discount := some 100, usage_limit := none, used_count := 0,
        valid_from := none, valid_until := none,
        is_active := true } : Coupon).calculate_discount 2000 = 100) := by
  have hbase : ∀ (x : ℚ), 0 ≤ x → c.discount_value ≤ 100 →
      x * c.discount_value / 100 ≤ x := by
    intro x hx hv
    calc x * c.discount_value / 100 ≤ x * 100 / 100 := by
          apply div_le_div_of_nonneg_right _ (by norm_num)
          exact mul_le_mul_of_nonneg_left hv hx
      _ = x := by ring
  refine ⟨?_, ?_, ?_, ?_, ?_, ?_⟩
  · intro h; simp [Coupon.calculate_discount, h]
  · intro h; simp only [Coupon.calculate_discount, h]
    exact min_le_right _ _
  · intro h hm; simp [Coupon.calculate_discount, h, hm]
  · intro h m hm hm0; simp [Coupon.calculate_discount, h, hm, hm0]
  · intro h hx hv
    simp only [Coupon.calculate_discount, h]
    rcases hmd : c.max_discount with _ | m
    · exact hbase amt hx hv
    · by_cases hm0 : m = 0
      · simp only [hm0, ne_eq, not_true_eq_false, if_false]
        exact hbase amt hx hv
      · simp only [ne_eq, hm0, not_false_eq_true, if_true]
        exact le_trans (min_le_left _ _) (hbase amt hx hv)
  · norm_num [Coupon.calculate_discount, min_def]

/-- **C4 counterexample**: the claim "the returned discount never exceeds
the order subtotal" fails for a percentage coupon with
`discount_value = 150` and no `max_discount`: on subtotal 100 the
computed discount is 150 > 100 (nothing in the code restricts
`discount_value` to at most 100). -/
theorem C4_counterexample :
    (({ bakery_id := none, code := "BIG", discount_type := .percentage,
        discount_value := 150, min_order_amount := 0, max_discount := none,
        usage_limit := none, used_count := 0, valid_from := none,
        valid_until := none,
        is_active := true } : Coupon).calculate_discount 100 = 150) ∧
    ¬ ((150 : ℚ) ≤ 100) := by
  constructor
  · norm_num [Coupon.calculate_discount]
  · norm_num

/-- **C4 witness**: the amended bound applied to the capped 10% coupon on
subtotal 2000. -/
theorem C4_witness :
    ({ bakery_id := none, code := "TEN10", discount_type := .percentage,
       discount_value := 10, min_order_amount := 0, max_discount := some 100,
       usage_limit := none, used_count := 0, valid_from := none,
       valid_until := none,
       is_active := true } : Coupon).calculate_discount 2000 ≤ 2000 :=
  (C4_calculate_discount _ 2000).2.2.2.2.1 rfl (by norm_num) (by norm_num)

/-- **C8**: `update_rating` sets `total_reviews` to the number of visible
reviews and `rating` to the arithmetic mean of their ratings (0 when
there are none); visible ratings [5,4,3] give mean 4 and count 3, and
hiding the rating-3 review gives mean 9/2 and count 2. -/
theorem C8_update_rating (b : Bakery) (reviews : List Review) :
    ((b.update_rating reviews).total_reviews
      = (reviews.filter (·.is_visible)).length) ∧
    ((reviews.filter (·.is_visible)).isEmpty = true →
      (b.update_rating reviews).rating = 0) ∧
    ((reviews.filter (·.is_visible)).isEmpty = false →
      (b.update_rating reviews).rating
          * ((reviews.filter (·.is_visible)).length : ℚ)
        = ((reviews.filter (·.is_visible)).map (·.rating)).sum) ∧
    ((b.update_rating [⟨5, true⟩, ⟨4, true⟩, ⟨3, true⟩]).rating = 4 ∧
      (b.update_rating [⟨5, true⟩, ⟨4, true⟩, ⟨3, true⟩]).total_reviews = 3) ∧
    ((b.update_rating [⟨5, true⟩, ⟨4, true⟩, ⟨3, false⟩]).rating = 9 / 2 ∧
      (b.update_rating [⟨5, true⟩, ⟨4, true⟩, ⟨3, false⟩]).total_reviews = 2) := by
  refine ⟨?_, ?_, ?_, ?_, ?_⟩
  · simp only [Bakery.update_rating]
    split
    · next h => simp [List.isEmpty_iff.mp h]
    · rfl
  · intro h; simp [Bakery.update_rating, h]
  · intro h
    have hne : (reviews.filter (·.is_visible)).length ≠ 0 := by
      simpa [List.isEmpty_iff, List.length_eq_zero] using h
    simp only [Bakery.update_rating, h, Bool.false_eq_true, if_false]
    rw [div_mul_cancel₀]
    exact_mod_cast hne
  · constructor
    · norm_num [Bakery.update_rating, List.filter]
    · norm_num [Bakery.update_rating, List.filter]
  · constructor
    · norm_num [Bakery.update_rating, List.filter]
    · norm_num [Bakery.update_rating, List.filter]

/-- **C8 witness**: the mean characterization applied to a concrete
single-review bakery. -/
theorem C8_witness :
    ((⟨1, 0, 0, 0, 30, true⟩ : Bakery).update_rating [⟨5, true⟩]).rating
        * ((([⟨5, true⟩] : List Review).filter (·.is_visible)).length : ℚ)
      = ((([⟨5, true⟩] : List Review).filter (·.is_visible)).map
          (·.rating)).sum :=
  (C8_update_rating ⟨1, 0, 0, 0, 30, true⟩ [⟨5, true⟩]).2.2.1 (by decide)

/-! ### Order-number format (C9) -/

lemma digitChar_isDigit_of_lt (n : Nat) (h : n < 10) :
    (Nat.digitChar n).isDigit = true := by
  have hfin : ∀ m : Fin 10, (Nat.digitChar m.val).isDigit = true := by decide
  exact hfin ⟨n, h⟩

lemma pad2_all_digits (n : Nat) : (pad2 n).all Char.isDigit = true := by
  simp only [pad2, List.all_cons, List.all_nil, Bool.and_eq_true,
    Bool.and_true]
  exact ⟨digitChar_isDigit_of_lt _ (Nat.mod_lt _ (by norm_num)),
    digitChar_isDigit_of_lt _ (Nat.mod_lt _ (by norm_num))⟩

lemma pad4_all_digits (n : Nat) : (pad4 n).all Char.isDigit = true := by
  simp only [pad4, List.all_cons, List.all_nil, Bool.and_eq_true,
    Bool.and_true]
  refine ⟨?_, ?_, ?_, ?_⟩ <;>
    exact digitChar_isDigit_of_lt _ (Nat.mod_lt _ (by norm_num))

lemma timestampChars_all_digits (t : Timestamp) :
    (timestampChars t).all Char.isDigit = true := by
  simp only [timestampChars, List.all_append, Bool.and_eq_true]
  exact ⟨⟨⟨⟨pad4_all_digits _, pad2_all_digits _⟩, pad2_all_digits _⟩,
    pad2_all_digits _⟩, pad2_all_digits _⟩

lemma timestampChars_length (t : Timestamp) :
    (timestampChars t).length = 12 := by
  simp [timestampChars, pad2, pad4]

lemma hexUpperChar_mem (i : Fin 16) :
    isUpperHexDigit (hexUpperChar i) = true := by
  have hfin : ∀ m : Fin 16, isUpperHexDigit (hexUpperChar m) = true := by
    decide
  exact hfin i

/-- **C9**: for every generation time (with the fields in the ranges
`datetime.utcnow()` produces) and every random draw of at least 6
nibbles, the generated order number is exactly `LC`, a 12-digit
`YYYYMMDDHHmm` timestamp, and 6 uppercase hexadecimal characters — 20
characters in total. -/
theorem C9_order_number_format (t : Timestamp) (r : List (Fin 16))
    (hr : 6 ≤ r.length) (hy : 1000 ≤ t.year) (hy' : t.year ≤ 9999)
    (hm : t.month ≤ 12) (hd : t.day ≤ 31) (hh : t.hour ≤ 23)
    (hmin : t.minute ≤ 59) :
    isOrderNumberFormat (generate_order_number t r) = true := by
  have htl : (String.mk (['L', 'C'] ++ timestampChars t
      ++ (r.take 6).map hexUpperChar)).toList
      = ['L', 'C'] ++ timestampChars t ++ (r.take 6).map hexUpperChar := rfl
  have hts : (timestampChars t).length = 12 := timestampChars_length t
  have hhx : ((r.take 6).map hexUpperChar).length = 6 := by
    simp [List.length_take, Nat.min_eq_left hr]
  simp only [isOrderNumberFormat, generate_order_number, htl,
    Bool.and_eq_true, decide_eq_true_eq]
  have hdrop : (['L', 'C'] ++ timestampChars t
      ++ (r.take 6).map hexUpperChar).drop 2
      = timestampChars t ++ (r.take 6).map hexUpperChar := by
    simp [List.append_assoc]
  refine ⟨⟨⟨?_, ?_⟩, ?_⟩, ?_⟩
  · simp only [List.length_append, List.length_cons, List.length_nil, hts,
      hhx]
  · rfl
  · rw [hdrop, List.take_left' hts]
    exact timestampChars_all_digits t
  · rw [hdrop, List.drop_left' hts]
    refine List.all_eq_true.mpr (fun ch hch => ?_)
    obtain ⟨i, _, rfl⟩ := List.mem_map.mp hch
    exact hexUpperChar_mem i

/-- **C9 witness**: the format holds at the spec's example instant
2024-05-14 23:01 UTC with nibble draw A1B2C3 (the generated string is
`LC202405142301A1B2C3`). -/
theorem C9_witness :
    isOrderNumberFormat
      (generate_order_number ⟨2024, 5, 14, 23, 1⟩
        ([10, 1, 11, 2, 12, 3] : List (Fin 16))) = true :=
  C9_order_number_format ⟨2024, 5, 14, 23, 1⟩ _ (by norm_num) (by norm_num)
    (by norm_num) (by norm_num) (by norm_num) (by norm_num) (by norm_num)

/-! ### Characterization of a successful checkout, shared by several
claims -/

lemma checkout_ok_spec {cart : List CartEntry} {bakery : Bakery}
    {addresses : List Nat} {address_id : Nat} {coupon : Option Coupon}
    {now : ℤ} {order_number : String} {res : CheckoutResult}
    (h : checkout cart bakery addresses address_id coupon now order_number
      = .ok res) :
    res.order.subtotal = cartSubtotal cart ∧
    res.order.delivery_fee = bakery.delivery_fee ∧
    res.order.total_amount
      = res.order.subtotal + res.order.delivery_fee - res.order.discount ∧
    res.order.status = .pending ∧
    res.items = cart.map (fun e =>
      ⟨e.product.id, e.product.name, e.quantity, e.product.current_price,
        e.subtotal, e.special_instructions⟩) ∧
    res.products = cart.map (fun e => (e.product.reduce_stock e.quantity).1) ∧
    res.history = [⟨.pending, "Order placed"⟩] ∧
    res.cart = [] ∧
    res.order.discount
      = (match coupon with
         | some c =>
             if (c.is_valid (cartSubtotal cart) (some bakery.id) now).1 then
               c.calculate_discount (cartSubtotal cart)
             else 0
         | none => 0) ∧
    res.coupon
      = (match coupon with
         | some c =>
             if (c.is_valid (cartSubtotal cart) (some bakery.id) now).1 then
               some { c with used_count := c.used_count + 1 }
             else some c
         | none => none) := by
  rcases coupon with _ | c
  · simp only [checkout] at h
    split at h
    · exact absurd h (by simp)
    split at h
    · exact absurd h (by simp)
    split at h
    · exact absurd h (by simp)
    simp only [Except.ok.injEq] at h
    subst h
    exact ⟨rfl, rfl, rfl, rfl, rfl, rfl, rfl, rfl, rfl, rfl⟩
  · simp only [checkout] at h
    split at h
    · exact absurd h (by simp)
    split at h
    · exact absurd h (by simp)
    split at h
    · exact absurd h (by simp)
    simp only [Except.ok.injEq] at h
    subst h
    refine ⟨rfl, rfl, rfl, rfl, rfl, rfl, rfl, rfl, ?_, ?_⟩ <;>
      (simp only; split <;> rfl)

/-! ### Stock safety (C10) -/

lemma reduce_stock_nonneg (p : Product) (q : ℤ)
    (h : 0 ≤ p.stock_quantity) : 0 ≤ (p.reduce_stock q).1.stock_quantity := by
  simp only [Product.reduce_stock]
  split
  · next hge => simpa using hge
  · exact h

/-- **C10**: `reduce_stock` decrements the stock by `q` and returns
`True` exactly when `stock_quantity ≥ q`, otherwise leaves the stock
unchanged and returns `False`; consequently a product with non-negative
stock keeps non-negative stock, and checkout never drives any cart
product's stock below zero. -/
theorem C10_reduce_stock_safe (p : Product) (q : ℤ)
    (cart : List CartEntry) (bakery : Bakery) (addresses : List Nat)
    (address_id : Nat) (coupon : Option Coupon) (now : ℤ)
    (order_number : String) (res : CheckoutResult) :
    (q ≤ p.stock_quantity →
      p.reduce_stock q
        = ({ p with stock_quantity := p.stock_quantity - q }, true)) ∧
    (p.stock_quantity < q → p.reduce_stock q = (p, false)) ∧
    (0 ≤ p.stock_quantity → 0 ≤ (p.reduce_stock q).1.stock_quantity) ∧
    (checkout cart bakery addresses address_id coupon now order_number
        = .ok res →
      (∀ e ∈ cart, 0 ≤ e.product.stock_quantity) →
      ∀ pr ∈ res.products, 0 ≤ pr.stock_quantity) := by
  refine ⟨?_, ?_, ?_, ?_⟩
  · intro h; simp [Product.reduce_stock, h]
  · intro h; simp [Product.reduce_stock, not_le.mpr h]
  · exact reduce_stock_nonneg p q
  · intro hok hpos pr hpr
    have hprods : res.products
        = cart.map (fun e => (e.product.reduce_stock e.quantity).1) :=
      (checkout_ok_spec hok).2.2.2.2.2.1
    rw [hprods] at hpr
    obtain ⟨e, he, rfl⟩ := List.mem_map.mp hpr
    exact reduce_stock_nonneg _ _ (hpos e he)

/-- Concrete evaluation of checkout on the spec's end-to-end scenario,
shared by several witnesses. -/
lemma exCheckout_eq :
    checkout exCart exBakery [7] 7 none 0 "LC202405142301A1B2C3"
      = .ok exRes := by
  norm_num [checkout, cartSubtotal, CartEntry.subtotal,
    Product.current_price, Product.reduce_stock, exCart, exProductA,
    exProductB, exBakery, exRes]

/-- **C10 witness**: reducing product A's stock of 10 by 2 succeeds and
leaves 8, and the scenario checkout leaves every product with
non-negative stock. -/
theorem C10_witness :
    (exProductA.reduce_stock 2
      = ({ exProductA with stock_quantity := 8 }, true)) ∧
    ∀ pr ∈ exRes.products, 0 ≤ pr.stock_quantity := by
  constructor
  · exact (C10_reduce_stock_safe exProductA 2 exCart exBakery [7] 7 none 0
      "LC202405142301A1B2C3" exRes).1 (by norm_num [exProductA])
  · exact (C10_reduce_stock_safe exProductA 2 exCart exBakery [7] 7 none 0
      "LC202405142301A1B2C3" exRes).2.2.2 exCheckout_eq
      (by decide)

/-! ### Order status state machine (C3) -/

/-- The transition table of the claim, as explicit pairs:
pending→{confirmed,cancelled}, confirmed→{preparing,cancelled},
preparing→{ready,cancelled}, ready→{out_for_delivery,delivered},
out_for_delivery→{delivered}. -/
def allowedTransitionPairs : List (OrderStatus × OrderStatus) :=
  [(.pending, .confirmed), (.pending, .cancelled),
   (.confirmed, .preparing), (.confirmed, .cancelled),
   (.preparing, .ready), (.preparing, .cancelled),
   (.ready, .out_for_delivery), (.ready, .delivered),
   (.out_for_delivery, .delivered)]

/-- **C3**: a status update succeeds exactly when the (current, new)
pair is in the transition table; a rejected update leaves the order and
its history unchanged; `can_cancel` holds exactly in `pending` and
`confirmed`; and a customer cancellation outside those states changes
nothing. -/
theorem C3_status_transitions (o : Order)
    (history : List StatusHistoryEntry) (ns : OrderStatus) (notes : String)
    (now : ℤ) (items : List OrderItem) (products : List Product)
    (reason : String) :
    ((update_order_status o history ns notes now).2.2 = true ↔
      (o.status, ns) ∈ allowedTransitionPairs) ∧
    ((update_order_status o history ns notes now).2.2 = false →
      update_order_status o history ns notes now = (o, history, false)) ∧
    (o.can_cancel = true ↔
      (o.status = .pending ∨ o.status = .confirmed)) ∧
    (o.can_cancel = false →
      cancel_order o items products history reason
        = (o, products, history, false)) := by
  refine ⟨?_, ?_, ?_, ?_⟩
  · cases hs : o.status <;> cases ns <;>
      simp [update_order_status, validTransitions, allowedTransitionPairs,
        hs]
  · intro hfail
    simp only [update_order_status] at hfail ⊢
    split at hfail
    · simp at hfail
    · next h => rw [if_neg h]
  · simp [Order.can_cancel]
  · intro hfail
    simp [cancel_order, hfail]

/-- **C3 witness**: the spec's example — an order already `delivered`
attempting to transition to `cancelled` is rejected and left unchanged,
and such an order cannot be customer-cancelled. -/
theorem C3_witness :
    (update_order_status
        ⟨"N1", 1, 7, 445, 30, 0, 475, .delivered, none, none⟩ []
        .cancelled "late" 0
      = (⟨"N1", 1, 7, 445, 30, 0, 475, .delivered, none, none⟩, [], false)) ∧
    (cancel_order ⟨"N1", 1, 7, 445, 30, 0, 475, .delivered, none, none⟩
        [] [] [] "late"
      = (⟨"N1", 1, 7, 445, 30, 0, 475, .delivered, none, none⟩, [], [],
          false)) := by
  constructor
  · exact (C3_status_transitions
      ⟨"N1", 1, 7, 445, 30, 0, 475, .delivered, none, none⟩ [] .cancelled
      "late" 0 [] [] "late").2.1 (by decide)
  · exact (C3_status_transitions
      ⟨"N1", 1, 7, 445, 30, 0, 475, .delivered, none, none⟩ [] .cancelled
      "late" 0 [] [] "late").2.2.2 (by decide)

/-! ### Cart quantity invariant (C7) -/

/-- **C7** (amended): `update_cart` deletes the row (rather than storing
a non-positive quantity) when the submitted quantity is zero or
negative, and both `update_cart` and `remove_from_cart` preserve the
quantity-positivity invariant; `add_to_cart` preserves it only when the
submitted quantity is positive — the route performs no positivity check
of its own. -/
theorem C7_cart_quantity (cart : List CartEntry) (item_id : Nat) (q : ℤ)
    (product : Product) (approved : Bool) (instr : String)
    (replace : Bool) (new_id : Nat) :
    (∀ cart', update_cart cart item_id q = some cart' →
      (q ≤ 0 → item_id ∉ cart'.map (fun e => e.id)) ∧
      ((∀ e ∈ cart, 0 < e.quantity) → ∀ e ∈ cart', 0 < e.quantity)) ∧
    (∀ cart', remove_from_cart cart item_id = some cart' →
      (∀ e ∈ cart, 0 < e.quantity) → ∀ e ∈ cart', 0 < e.quantity) ∧
    (∀ cart', add_to_cart cart product approved q instr replace new_id
        = .added cart' →
      0 < q → (∀ e ∈ cart, 0 < e.quantity) → ∀ e ∈ cart', 0 < e.quantity) := by
  have hmerge : ∀ (base : List CartEntry), 0 < q →
      (∀ e ∈ base, 0 < e.quantity) →
      ∀ e ∈ addOrMerge base product q instr new_id, 0 < e.quantity := by
    intro base hq hbase e he
    simp only [addOrMerge] at he
    split at he
    · obtain ⟨x, hx, rfl⟩ := List.mem_map.mp he
      split
      · next => simpa using add_pos (hbase x hx) hq
      · exact hbase x hx
    · rcases List.mem_append.mp he with hx | hx
      · exact hbase e hx
      · simp only [List.mem_singleton] at hx
        subst hx
        exact hq
  refine ⟨?_, ?_, ?_⟩
  · intro cart' hup
    simp only [update_cart] at hup
    split at hup
    · split at hup
      · next hq0 =>
        simp only [Option.some.injEq] at hup
        subst hup
        constructor
        · intro _ hmem
          obtain ⟨e, he, heid⟩ := List.mem_map.mp hmem
          have := List.of_mem_filter he
          simp_all
        · intro hpos e he
          exact hpos e (List.mem_of_mem_filter he)
      · next hq0 =>
        simp only [Option.some.injEq] at hup
        subst hup
        constructor
        · intro hq; exact absurd hq hq0
        · intro hpos e he
          obtain ⟨x, hx, rfl⟩ := List.mem_map.mp he
          split
          · next => simpa using lt_of_not_le hq0
          · exact hpos x hx
    · exact absurd hup (by simp)
  · intro cart' hrm
    simp only [remove_from_cart] at hrm
    split at hrm
    · simp only [Option.some.injEq] at hrm
      subst hrm
      intro hpos e he
      exact hpos e (List.mem_of_mem_filter he)
    · exact absurd hrm (by simp)
  · intro cart' hadd hq hpos
    simp only [add_to_cart] at hadd
    split at hadd
    · exact absurd hadd (by simp)
    · split at hadd
      · split at hadd
        · split at hadd
          · simp only [AddOutcome.added.injEq] at hadd
            subst hadd
            exact hmerge [] hq (by simp)
          · exact absurd hadd (by simp)
        · simp only [AddOutcome.added.injEq] at hadd
          subst hadd
          exact hmerge cart hq hpos
      · simp only [AddOutcome.added.injEq] at hadd
        subst hadd
        exact hmerge cart hq hpos

/-- **C7 counterexample**: the claim that every cart operation preserves
`quantity > 0` fails for `add_to_cart`: submitting quantity 0 for an
available product to an empty cart stores a row with quantity 0 instead
of rejecting or deleting it. -/
theorem C7_counterexample :
    add_to_cart [] exProductA true 0 "" false 1
        = .added [⟨1, exProductA, 0, ""⟩] ∧
    ¬ ((0 : ℤ) < 0) := by
  constructor
  · decide
  · decide

/-- **C7 witness**: updating the only cart row (quantity 2) with
quantity 0 deletes it — the row's id no longer appears — and adding
quantity 2 of product A to an empty cart yields a cart whose rows all
have positive quantity. -/
theorem C7_witness :
    ((1 : Nat) ∉ (([] : List CartEntry).map (fun e => e.id))) ∧
    (∀ e ∈ [(⟨1, exProductA, 2, ""⟩ : CartEntry)], 0 < e.quantity) := by
  constructor
  · exact ((C7_cart_quantity [⟨1, exProductA, 2, ""⟩] 1 0 exProductA true ""
      false 1).1 [] (by decide)).1 (by decide)
  · exact (C7_cart_quantity [] 1 2 exProductA true "" false 1).2.2
      [⟨1, exProductA, 2, ""⟩] (by decide) (by decide) (by decide)

/-! ### Order totals (C1) -/

/-- **C1**: every order created by checkout satisfies
`total_amount = subtotal + delivery_fee - discount`; its `subtotal` is
the sum over the cart of `current_price(product) × quantity` evaluated
at checkout time; the sum of the created `OrderItem.subtotal` values
equals the order's subtotal; and each item's subtotal is
`unit_price × quantity`. -/
theorem C1_order_totals (cart : List CartEntry) (bakery : Bakery)
    (addresses : List Nat) (address_id : Nat) (coupon : Option Coupon)
    (now : ℤ) (order_number : String) (res : CheckoutResult)
    (h : checkout cart bakery addresses address_id coupon now order_number
      = .ok res) :
    res.order.total_amount
      = res.order.subtotal + res.order.delivery_fee - res.order.discount ∧
    res.order.subtotal
      = (cart.map (fun e => e.product.current_price * (e.quantity : ℚ))).sum ∧
    (res.items.map (fun it => it.subtotal)).sum = res.order.subtotal ∧
    ∀ it ∈ res.items, it.subtotal = it.unit_price * (it.quantity : ℚ) := by
  obtain ⟨hsub, -, htot, -, hitems, -⟩ := checkout_ok_spec h
  refine ⟨htot, ?_, ?_, ?_⟩
  · rw [hsub]
    rfl
  · rw [hitems, hsub, List.map_map]
    rfl
  · intro it hit
    rw [hitems] at hit
    obtain ⟨e, _, rfl⟩ := List.mem_map.mp hit
    simp [CartEntry.subtotal]

/-- **C1 witness**: the spec's end-to-end scenario (2 × 180 + 1 × 85,
delivery fee 30, no coupon) produces an order with
`total_amount = subtotal + delivery_fee - discount` and item subtotals
summing to the order subtotal. -/
theorem C1_witness :
    exRes.order.total_amount
      = exRes.order.subtotal + exRes.order.delivery_fee
        - exRes.order.discount ∧
    (exRes.items.map (fun it => it.subtotal)).sum = exRes.order.subtotal := by
  have h := C1_order_totals exCart exBakery [7] 7 none 0
    "LC202405142301A1B2C3" exRes exCheckout_eq
  exact ⟨h.1, h.2.2.1⟩

/-! ### Checkout failure modes and the coupon soft-fail (C5) -/

/-- **C5**: checkout rejects an empty cart with `emptyCart`, a cart
subtotal below the bakery minimum with `belowMinimumOrder`, and an
address id not among the actor's addresses with `invalidAddress` — in
each case returning an error and producing no order, items, stock
change or cart deletion — while an invalid coupon does NOT fail
checkout: the order is created with discount 0, an unchanged coupon and
`total = subtotal + delivery_fee`. -/
theorem C5_checkout_failures (cart : List CartEntry) (bakery : Bakery)
    (addresses : List Nat) (address_id : Nat) (coupon : Option Coupon)
    (now : ℤ) (order_number : String) (c : Coupon)
    (res : CheckoutResult) :
    (checkout [] bakery addresses address_id coupon now order_number
      = .error .emptyCart) ∧
    (cart ≠ [] → cartSubtotal cart < bakery.min_order_amount →
      checkout cart bakery addresses address_id coupon now order_number
        = .error .belowMinimumOrder) ∧
    (cart ≠ [] → ¬ cartSubtotal cart < bakery.min_order_amount →
      address_id ∉ addresses →
      checkout cart bakery addresses address_id coupon now order_number
        = .error .invalidAddress) ∧
    (checkout cart bakery addresses address_id (some c) now order_number
        = .ok res →
      (c.is_valid (cartSubtotal cart) (some bakery.id) now).1 = false →
      res.order.discount = 0 ∧ res.coupon = some c ∧
        res.order.total_amount = cartSubtotal cart + bakery.delivery_fee) := by
  refine ⟨?_, ?_, ?_, ?_⟩
  · simp [checkout]
  · intro hne hlt
    simp [checkout, List.isEmpty_iff, hne, hlt]
  · intro hne hge haddr
    simp [checkout, List.isEmpty_iff, hne, hge, haddr]
  · intro hok hinvalid
    obtain ⟨hsub, hfee, htot, -, -, -, -, -, hdisc, hcoup⟩ :=
      checkout_ok_spec hok
    simp only [hinvalid, Bool.false_eq_true, if_false] at hdisc hcoup
    refine ⟨hdisc, hcoup, ?_⟩
    rw [htot, hsub, hfee, hdisc]
    ring

/-- An inactive coupon, used to exercise the soft-fail path. -/
def invCoupon : Coupon :=
  ⟨none, "DEAD", .fixed, 50, 0, none, none, 0, none, none, false⟩

/-- The result of the scenario checkout when the inactive coupon `DEAD`
is submitted: same order as without a coupon, discount 0, coupon left
untouched. -/
def invRes : CheckoutResult := { exRes with coupon := some invCoupon }

/-- **C5 witness**: the scenario cart with bakery minimum 1000 is
rejected as below minimum, and submitting the inactive coupon `DEAD`
does not fail checkout — the order is created with discount 0 and
`total = 445 + 30`. -/
theorem C5_witness :
    (checkout exCart ⟨1, 0, 0, 1000, 30, true⟩ [7] 7 none 0 "X"
      = .error .belowMinimumOrder) ∧
    (invRes.order.discount = 0 ∧ invRes.coupon = some invCoupon ∧
      invRes.order.total_amount = cartSubtotal exCart
        + (⟨1, 0, 0, 0, 30, true⟩ : Bakery).delivery_fee) := by
  constructor
  · exact (C5_checkout_failures exCart ⟨1, 0, 0, 1000, 30, true⟩ [7] 7 none
      0 "X" invCoupon exRes).2.1 (by decide)
      (by norm_num [cartSubtotal, CartEntry.subtotal, Product.current_price,
        exCart, exProductA, exProductB])
  · exact (C5_checkout_failures exCart ⟨1, 0, 0, 0, 30, true⟩ [7] 7
      (some invCoupon) 0 "LC202405142301A1B2C3" invCoupon invRes).2.2.2
      (by norm_num [checkout, cartSubtotal, CartEntry.subtotal,
        Product.current_price, Product.reduce_stock, Coupon.is_valid,
        exCart, exProductA, exProductB, invCoupon, invRes, exRes])
      (by norm_num [Coupon.is_valid, invCoupon])

/-! ### Cancellation round-trip on stock (C2) -/

/-- Total quantity over the order items that reference product `pid`;
with one item per product this is that item's quantity. -/
def itemsQtyFor (items : List OrderItem) (pid : Nat) : ℤ :=
  ((items.filter (fun it => it.product_id = pid)).map
    (fun it => it.quantity)).sum

lemma restoreStock_eq_map (items : List OrderItem)
    (products : List Product) :
    restoreStock items products
      = products.map (fun p =>
          { p with
              stock_quantity := p.stock_quantity + itemsQtyFor items p.id }) := by
  induction items generalizing products with
  | nil =>
      simp only [restoreStock, List.foldl_nil, itemsQtyFor, List.filter_nil,
        List.map_nil, List.sum_nil, add_zero]
      exact (List.map_id' products).symm
  | cons it its ih =>
      have h1 : restoreStock (it :: its) products
          = restoreStock its (products.map (fun p =>
              if p.id = it.product_id then
                { p with stock_quantity := p.stock_quantity + it.quantity }
              else p)) := rfl
      rw [h1, ih, List.map_map]
      apply List.map_congr_left
      intro p _
      have hq : itemsQtyFor (it :: its) p.id
          = (if it.product_id = p.id then it.quantity else 0)
            + itemsQtyFor its p.id := by
        simp only [itemsQtyFor, List.filter_cons]
        split
        · next h =>
          rw [if_pos (of_decide_eq_true h)]
          simp
        · next h =>
          rw [if_neg (fun hc => by simp [hc] at h)]
          simp
      by_cases hid : p.id = it.product_id
      · simp only [Function.comp, if_pos hid, hq, if_pos hid.symm]
        congr 1
        ring
      · simp only [Function.comp, if_neg hid, hq,
          if_neg (fun hc : it.product_id = p.id => hid hc.symm)]
        congr 1
        ring

lemma filter_pid_singleton (cart : List CartEntry) (e : CartEntry)
    (hids : (cart.map (fun x => x.product.id)).Nodup) (he : e ∈ cart) :
    cart.filter (fun x => x.product.id = e.product.id) = [e] := by
  induction cart with
  | nil => cases he
  | cons x xs ih =>
      simp only [List.map_cons, List.nodup_cons, List.mem_map] at hids
      obtain ⟨hx, hxs⟩ := hids
      rcases List.mem_cons.mp he with rfl | hmem
      · simp only [List.filter_cons, decide_eq_true_eq, eq_self_iff_true,
          if_true]
        congr 1
        refine List.filter_eq_nil_iff.mpr (fun a ha => ?_)
        simp only [decide_eq_true_eq]
        exact fun hcontra => hx ⟨a, ha, hcontra⟩
      · have hne : ¬ x.product.id = e.product.id := by
          intro hcontra
          exact hx ⟨e, hmem, hcontra.symm⟩
        simp only [List.filter_cons, decide_eq_true_eq, if_neg hne]
        exact ih hxs hmem

lemma itemsQtyFor_of_cart (cart : List CartEntry) (pid : Nat) :
    itemsQtyFor (cart.map (fun e =>
        (⟨e.product.id, e.product.name, e.quantity,
          e.product.current_price, e.subtotal,
          e.special_instructions⟩ : OrderItem))) pid
      = ((cart.filter (fun e => e.product.id = pid)).map
          (fun e => e.quantity)).sum := by
  induction cart with
  | nil => rfl
  | cons x xs ih =>
      simp only [List.map_cons, itemsQtyFor, List.filter_cons,
        decide_eq_true_eq] at *
      by_cases h : x.product.id = pid
      · simp only [if_pos h, List.map_cons, List.sum_cons, ih]
      · simp only [if_neg h, ih]

/-- **C2** (amended): for an order created by checkout from a cart in
which every product had sufficient stock (`quantity ≤ stock_quantity`,
so every decrement actually happened), cancelling the freshly created
(`pending`) order succeeds and restores every product's stock to its
exact pre-checkout value. -/
theorem C2_cancel_restores_stock (cart : List CartEntry) (bakery : Bakery)
    (addresses : List Nat) (address_id : Nat) (coupon : Option Coupon)
    (now : ℤ) (order_number : String) (res : CheckoutResult)
    (reason : String)
    (hok : checkout cart bakery addresses address_id coupon now order_number
      = .ok res)
    (hids : (cart.map (fun e => e.product.id)).Nodup)
    (hstock : ∀ e ∈ cart, e.quantity ≤ e.product.stock_quantity) :
    (cancel_order res.order res.items res.products res.history
      reason).2.2.2 = true ∧
    (cancel_order res.order res.items res.products res.history
        reason).2.1.map (fun p => p.stock_quantity)
      = cart.map (fun e => e.product.stock_quantity) := by
  obtain ⟨-, -, -, hst, hitems, hprods, -, -, -, -⟩ := checkout_ok_spec hok
  have hcancel : res.order.can_cancel = true := by
    simp [Order.can_cancel, hst]
  constructor
  · simp [cancel_order, hcancel]
  · simp only [cancel_order, hcancel, if_true]
    rw [hitems, hprods, restoreStock_eq_map, List.map_map, List.map_map]
    apply List.map_congr_left
    intro e he
    have hred : (e.product.reduce_stock e.quantity).1
        = { e.product with
            stock_quantity := e.product.stock_quantity - e.quantity } := by
      simp [Product.reduce_stock, hstock e he]
    simp only [Function.comp, hred]
    have hqty : itemsQtyFor (cart.map (fun e =>
        (⟨e.product.id, e.product.name, e.quantity,
          e.product.current_price, e.subtotal,
          e.special_instructions⟩ : OrderItem))) e.product.id
        = e.quantity := by
      rw [itemsQtyFor_of_cart, filter_pid_singleton cart e hids he]
      simp
    rw [hqty]
    ring

/-- Product with stock 1, used by the C2 counterexample. -/
def cxProduct : Product := ⟨1, 1, "C", 10, none, 1, true⟩

/-- One-item cart ordering 2 units of the stock-1 product. -/
def cxCart : List CartEntry := [⟨1, cxProduct, 2, ""⟩]

/-- The checkout result on `cxCart`: `reduce_stock` fails silently, so
the stored product still has stock 1. -/
def cxRes : CheckoutResult :=
  { order :=
      { order_number := "X", bakery_id := 1, delivery_address_id := 7,
        subtotal := 20, delivery_fee := 30, discount := 0,
        total_amount := 50, status := .pending,
        cancellation_reason := none, delivered_at := none }
    items := [⟨1, "C", 2, 10, 20, ""⟩]
    products := [cxProduct]
    history := [⟨.pending, "Order placed"⟩]
    coupon := none
    cart := [] }

/-- **C2 counterexample**: the round-trip fails as stated.  With product
stock 1 and ordered quantity 2, checkout succeeds but silently skips the
decrement (stock stays 1); cancelling then unconditionally restores +2,
leaving stock 3 ≠ 1 — not the pre-checkout value. -/
theorem C2_counterexample :
    checkout cxCart exBakery [7] 7 none 0 "X" = .ok cxRes ∧
    (cancel_order cxRes.order cxRes.items cxRes.products cxRes.history
        "r").2.1.map (fun p => p.stock_quantity) = [3] ∧
    cxCart.map (fun e => e.product.stock_quantity) = [1] ∧
    (3 : ℤ) ≠ 1 := by
  refine ⟨?_, ?_, ?_, ?_⟩
  · norm_num [checkout, cartSubtotal, CartEntry.subtotal,
      Product.current_price, Product.reduce_stock, cxCart, cxProduct,
      exBakery, cxRes]
  · decide
  · decide
  · decide

/-- **C2 witness**: on the spec's scenario cart (stocks 10 and 5,
quantities 2 and 1 — both sufficient) cancel-after-checkout succeeds and
returns the stocks to [10, 5]. -/
theorem C2_witness :
    (cancel_order exRes.order exRes.items exRes.products exRes.history
      "changed my mind").2.2.2 = true ∧
    (cancel_order exRes.order exRes.items exRes.products exRes.history
        "changed my mind").2.1.map (fun p => p.stock_quantity)
      = exCart.map (fun e => e.product.stock_quantity) :=
  C2_cancel_restores_stock exCart exBakery [7] 7 none 0
    "LC202405142301A1B2C3" exRes "changed my mind" exCheckout_eq
    (by decide) (by decide)

/-! ### Coupon validation order and purity (C6) -/

set_option maxHeartbeats 1600000 in
/-- **C6**: `is_valid` evaluates its checks in the fixed source order —
is_active, then validity window (`valid_from` before `valid_until`),
then usage limit, then minimum order amount, then bakery scope — and
returns the reason of the first failing check (`valid` when all pass,
and the boolean is true exactly then); it mutates nothing, in
particular `used_count` is unchanged.  (Numeric truthiness:
`usage_limit = 0` counts as unlimited, and the scope check fires only
when both bakery ids are non-null.) -/
theorem C6_coupon_validation (c : Coupon) (amt : ℚ) (b : Option Nat)
    (now : ℤ) :
    (((c.is_valid amt b now).2 = .notActive ↔ c.is_active = false) ∧
    ((c.is_valid amt b now).2 = .notYetValid ↔
      (c.is_active = true ∧ ∃ vf ∈ c.valid_from, now < vf)) ∧
    ((c.is_valid amt b now).2 = .expired ↔
      (c.is_active = true ∧ (∀ vf ∈ c.valid_from, vf ≤ now) ∧
        ∃ vu ∈ c.valid_until, vu < now)) ∧
    ((c.is_valid amt b now).2 = .usageLimitReached ↔
      (c.is_active = true ∧ (∀ vf ∈ c.valid_from, vf ≤ now) ∧
        (∀ vu ∈ c.valid_until, now ≤ vu) ∧
        ∃ l ∈ c.usage_limit, l ≠ 0 ∧ l ≤ c.used_count)) ∧
    ((c.is_valid amt b now).2 = .belowMinimumOrder ↔
      (c.is_active = true ∧ (∀ vf ∈ c.valid_from, vf ≤ now) ∧
        (∀ vu ∈ c.valid_until, now ≤ vu) ∧
        (∀ l ∈ c.usage_limit, l = 0 ∨ c.used_count < l) ∧
        amt < c.min_order_amount)) ∧
    ((c.is_valid amt b now).2 = .wrongBakery ↔
      (c.is_active = true ∧ (∀ vf ∈ c.valid_from, vf ≤ now) ∧
        (∀ vu ∈ c.valid_until, now ≤ vu) ∧
        (∀ l ∈ c.usage_limit, l = 0 ∨ c.used_count < l) ∧
        c.min_order_amount ≤ amt ∧
        ∃ cb ∈ c.bakery_id, ∃ bid ∈ b, cb ≠ bid)) ∧
    ((c.is_valid amt b now).1 = true ↔
      (c.is_valid amt b now).2 = .valid)) ∧
    (c.is_validS amt b now).2.used_count = c.used_count ∧
    (c.is_validS amt b now).2 = c := by
  refine ⟨?_, rfl, rfl⟩
  rcases hvf : c.valid_from with _ | vf <;>
  rcases hvu : c.valid_until with _ | vu <;>
  rcases hul : c.usage_limit with _ | l <;>
  rcases hcb : c.bakery_id with _ | cb <;>
  rcases hb : b with _ | bid <;>
  simp only [Coupon.is_valid, hvf, hvu, hul, hcb, hb] <;>
  split_ifs <;>
  simp_all <;>
  omega

/-- **C6 witness**: a coupon whose window ended at instant 5 queried at
instant 10 is reported `expired` — via the characterization’s third
clause — and its post-validation state equals its pre-validation
state. -/
theorem C6_witness :
    ((⟨none, "E", .fixed, 10, 0, none, none, 0, none, some 5,
        true⟩ : Coupon).is_valid 100 none 10).2 = .expired ∧
    ((⟨none, "E", .fixed, 10, 0, none, none, 0, none, some 5,
        true⟩ : Coupon).is_validS 100 none 10).2
      = ⟨none, "E", .fixed, 10, 0, none, none, 0, none, some 5, true⟩ := by
  have h := C6_coupon_validation
    ⟨none, "E", .fixed, 10, 0, none, none, 0, none, some 5, true⟩ 100 none 10
  exact ⟨h.1.2.2.1.mpr ⟨rfl, by simp, ⟨5, rfl, by norm_num⟩⟩, h.2.2⟩

end FreshBakes
